import Mathlib

/-!
Verification of the subscription/trial/payment core of the school-administration
web application (src/app.py) against its specification.

Modelling conventions (shallow embedding):
* Calendar dates are integer day numbers (`Int`).  `datetime.date.today()` becomes a
  `today : Int` parameter, `d + timedelta(days=k)` becomes `d + k`, and `d1 <= d2`
  becomes `d1 ≤ d2`.  The SQL comparisons on `current_period_end` compare ISO date
  strings, and on valid ISO dates string order agrees with date order, so they are
  modelled as `Int` comparisons.
* The `subscriptions` table is a list of rows in insertion order; an SQL `INSERT`
  appends, an `UPDATE ... WHERE` maps a conditional transformation over the rows, and
  `ORDER BY current_period_end DESC LIMIT 1` picks a row of maximal
  `current_period_end` among the rows matching the `WHERE` clause.
* A nullable TEXT column holding a date string is a `DateField`: `null` is SQL NULL or
  the empty string (both falsy in Python), `invalid` is a non-empty string rejected by
  `datetime.fromisoformat`, `date d` is a string parsing to day number `d`.
* Parsed JSON values (the result of `request.get_json`) are the inductive `Json`;
  Python `None` and JSON `null` coincide after parsing, and JSON numbers are modelled
  as integers (floating-point payloads are outside the model).
-/

/-- Trial length in days (`TRIAL_DAYS = 7` in src/app.py). -/
def TRIAL_DAYS : Int := 7

/-- Billing cycle length in days (`BILLING_DAYS = 30` in src/app.py). -/
def BILLING_DAYS : Int := 30

/-- A nullable date-string column (`trial_started_at`, `trial_ends_at`).
`null` = SQL NULL or empty string, `invalid` = non-empty string that
`datetime.fromisoformat` rejects, `date d` = valid date string for day `d`. -/
inductive DateField
  | null
  | invalid
  | date (d : Int)
deriving DecidableEq

/-- Python truthiness of a `DateField` value (`if user["trial_started_at"]:`):
NULL and the empty string are falsy, any other string is truthy. -/
def dateFieldTruthy : DateField → Bool
  | DateField.null => false
  | DateField.invalid => true
  | DateField.date _ => true

/-- A row of the `users` table, restricted to the columns the subscription core reads
or writes (`id`, `trial_started_at`, `trial_ends_at`); the remaining columns
(`username`, `email`, `password_hash`, `role`) are never touched by the modelled
operations. -/
structure User where
  id : Int
  trial_started_at : DateField
  trial_ends_at : DateField
deriving DecidableEq

/-- The `status` column of `subscriptions`, constrained by
`CHECK(status IN ('active','canceled'))`. -/
inductive SubStatus
  | active
  | canceled
deriving DecidableEq

/-- A row of the `subscriptions` table (the `id` and `created_at` columns are never
read by the modelled operations). -/
structure SubRow where
  user_id : Int
  status : SubStatus
  current_period_start : Int
  current_period_end : Int
  cancel_at_period_end : Int
deriving DecidableEq

/-- `SELECT * FROM users WHERE id = ?` followed by `fetchone()`; `id` is the primary
key, so the first match is the row. -/
def findUser (users : List User) (uid : Int) : Option User :=
  users.find? (fun u => decide (u.id = uid))

/-- `SELECT * FROM subscriptions WHERE <p> ORDER BY current_period_end DESC LIMIT 1`:
returns a row satisfying `p` whose `current_period_end` is maximal among the rows
satisfying `p` (SQLite leaves the choice among ties unspecified; this model keeps the
earliest such row), or `none` if no row matches. -/
def queryTopByEnd (p : SubRow → Bool) : List SubRow → Option SubRow
  | [] => none
  | r :: rs =>
    match queryTopByEnd p rs, p r with
    | none, true => some r
    | none, false => none
    | some b, true =>
        if r.current_period_end < b.current_period_end then some b else some r
    | some b, false => some b

/-- `has_trial_access(user_row)` from src/app.py: `False` for a missing row, a NULL or
empty `trial_ends_at`, or an unparseable `trial_ends_at` (the `try/except` around
`fromisoformat`); otherwise `today <= ends`. -/
def has_trial_access (user_row : Option User) (today : Int) : Bool :=
  match user_row with
  | none => false
  | some u =>
    match u.trial_ends_at with
    | DateField.null => false
    | DateField.invalid => false
    | DateField.date ends => decide (today ≤ ends)

/-- `active_subscription_for(user_id)` from src/app.py: the top row by
`current_period_end` among the user's rows with `status = 'active'` and
`current_period_end >= today`. -/
def active_subscription_for (subs : List SubRow) (uid : Int) (today : Int) :
    Option SubRow :=
  queryTopByEnd
    (fun r => decide (r.user_id = uid ∧ r.status = SubStatus.active ∧
      today ≤ r.current_period_end)) subs

/-- Outcome of the `subscription_required` decorator: run the wrapped view, or flash a
message and redirect to the pricing page. -/
inductive GateResult
  | proceed
  | redirectPricing
deriving DecidableEq

/-- The `subscription_required` decorator from src/app.py: load the user; proceed iff
the user exists and `has_trial_access(user) or active_subscription_for(user["id"])`
holds, otherwise redirect to the pricing page. -/
def subscription_required (users : List User) (subs : List SubRow) (uid : Int)
    (today : Int) : GateResult :=
  match findUser users uid with
  | none => GateResult.redirectPricing
  | some u =>
    if has_trial_access (some u) today ||
        (active_subscription_for subs uid today).isSome
    then GateResult.proceed
    else GateResult.redirectPricing

/-- The start date chosen by `create_subscription_month` in src/app.py:
`period_start = today`, overridden to `last_end + 1 day` when the latest active row
exists and its `current_period_end >= today`. -/
def newPeriodStart (subs : List SubRow) (user_id : Int) (today : Int) : Int :=
  match queryTopByEnd
      (fun r => decide (r.user_id = user_id ∧ r.status = SubStatus.active)) subs with
  | some last =>
      if today ≤ last.current_period_end then last.current_period_end + 1 else today
  | none => today

/-- `create_subscription_month(user_id)` from src/app.py: compute the period start,
set `period_end = period_start + (BILLING_DAYS - 1)`, insert one new row with
`status='active'` and `cancel_at_period_end=0`, and return the new ledger together
with the computed `period_end`. -/
def create_subscription_month (subs : List SubRow) (user_id : Int) (today : Int) :
    List SubRow × Int :=
  let period_start := newPeriodStart subs user_id today
  let period_end := period_start + (BILLING_DAYS - 1)
  (subs ++ [⟨user_id, SubStatus.active, period_start, period_end, 0⟩], period_end)

/-- Outcome of the `start_trial` action of the `subscribe` view. -/
inductive TrialOutcome
  | alreadyUsed
  | started (ends : Int)
  | noUserError
deriving DecidableEq

/-- The `start_trial` branch of the `subscribe` view in src/app.py: if the user's
`trial_started_at` is truthy, flash "trial already used" and change nothing; otherwise
set `trial_started_at = today` and `trial_ends_at = today + TRIAL_DAYS`.  A missing
user row would raise a `TypeError` in Python (unreachable behind `login_required`);
it is modelled as `noUserError` with no state change. -/
def subscribe_start_trial (users : List User) (uid : Int) (today : Int) :
    List User × TrialOutcome :=
  match findUser users uid with
  | none => (users, TrialOutcome.noUserError)
  | some u =>
    if dateFieldTruthy u.trial_started_at then
      (users, TrialOutcome.alreadyUsed)
    else
      (users.map (fun v =>
          if v.id = uid then
            { v with trial_started_at := DateField.date today,
                     trial_ends_at := DateField.date (today + TRIAL_DAYS) }
          else v),
       TrialOutcome.started (today + TRIAL_DAYS))

/-- The `cancel` branch of the `subscribe` view in src/app.py:
`UPDATE subscriptions SET cancel_at_period_end=1 WHERE user_id=? AND status='active'
AND cancel_at_period_end=0`. -/
def subscribe_cancel (subs : List SubRow) (uid : Int) : List SubRow :=
  subs.map (fun r =>
    if r.user_id = uid ∧ r.status = SubStatus.active ∧ r.cancel_at_period_end = 0
    then { r with cancel_at_period_end := 1 }
    else r)

/-- The un-cancel step of the webhook in src/app.py:
`UPDATE subscriptions SET cancel_at_period_end=0 WHERE user_id=? AND
status='active'`. -/
def clear_cancel (subs : List SubRow) (uid : Int) : List SubRow :=
  subs.map (fun r =>
    if r.user_id = uid ∧ r.status = SubStatus.active
    then { r with cancel_at_period_end := 0 }
    else r)

/-- A parsed JSON value, i.e. the Python object produced by `request.get_json`
(JSON `null` and Python `None` coincide after parsing; numbers are modelled as
integers). -/
inductive Json
  | null
  | bool (b : Bool)
  | num (n : Int)
  | str (s : String)
  | arr (elems : List Json)
  | obj (fields : List (String × Json))

/-- Python truthiness of a parsed JSON value: `None`, `False`, `0`, `""`, `[]` and
`{}` are falsy. -/
def jsonTruthy : Json → Bool
  | Json.null => false
  | Json.bool b => b
  | Json.num n => decide (n ≠ 0)
  | Json.str s => decide (s ≠ "")
  | Json.arr l => !l.isEmpty
  | Json.obj l => !l.isEmpty

/-- Python `dict.get(k)` on a parsed JSON object: the value bound to `k`, or `None`
when absent (Python dicts have unique keys, so the first binding is the binding). -/
def dictGet (fields : List (String × Json)) (k : String) : Json :=
  match fields.find? (fun kv => decide (kv.1 = k)) with
  | some kv => kv.2
  | none => Json.null

/-- Python `a or b` on parsed JSON values: `a` when truthy, else `b`. -/
def pyOrElse (a b : Json) : Json :=
  if jsonTruthy a then a else b

/-- Python `a or {}` on parsed JSON values. -/
def pyOrEmpty (a : Json) : Json :=
  pyOrElse a (Json.obj [])

/-- Python `j == s` for a string literal `s`: true only for an equal string (no JSON
value of another kind equals a non-empty string in Python). -/
def isStr (j : Json) (s : String) : Bool :=
  match j with
  | Json.str t => decide (t = s)
  | _ => false

/-- `status in ("paid", "succeeded", "success")` from the webhook. -/
def acceptedStatus (j : Json) : Bool :=
  isStr j "paid" || isStr j "succeeded" || isStr j "success"

/-- Python `int()` applied to a string (the relevant subset): strip surrounding ASCII
whitespace, then an optional sign followed by digits in which single underscores may
separate digit pairs. -/
def isSpaceChar (c : Char) : Bool :=
  c == ' ' || c == '\t' || c == '\n' || c == '\r' || c.toNat == 11 || c.toNat == 12

/-- Decimal digit test for `parsePyInt`. -/
def isDigitChar (c : Char) : Bool :=
  '0' ≤ c && c ≤ '9'

/-- Digit value for `parsePyInt`. -/
def digitVal (c : Char) : Nat :=
  c.toNat - '0'.toNat

/-- Continuation of digit parsing: remaining characters must be digits, with a single
underscore allowed only between two digits. -/
def digitsLoop : List Char → Nat → Option Nat
  | [], acc => some acc
  | ['_'], _ => none
  | '_' :: c :: cs, acc =>
      if isDigitChar c then digitsLoop cs (acc * 10 + digitVal c) else none
  | c :: cs, acc =>
      if isDigitChar c then digitsLoop cs (acc * 10 + digitVal c) else none

/-- Parse a nonempty digit group (first character must be a digit). -/
def parseDigits : List Char → Option Nat
  | [] => none
  | c :: cs => if isDigitChar c then digitsLoop cs (digitVal c) else none

/-- Python `int(s)` on a string: optional surrounding whitespace, optional sign,
digits with optional single underscores between digits; `none` models a raised
`ValueError`. -/
def parsePyInt (s : String) : Option Int :=
  match (s.toList.dropWhile isSpaceChar).reverse.dropWhile isSpaceChar |>.reverse with
  | '+' :: rest => (parseDigits rest).map (fun n => (n : Int))
  | '-' :: rest => (parseDigits rest).map (fun n => -(n : Int))
  | rest => (parseDigits rest).map (fun n => (n : Int))

/-- Python `int(user_id)` on a JSON-derived value: an integer stays itself, a bool
becomes 0/1, a string is parsed, and `None`, lists and dicts raise `TypeError`
(modelled as `none`). -/
def pyToInt : Json → Option Int
  | Json.num n => some n
  | Json.bool b => some (if b then 1 else 0)
  | Json.str s => parsePyInt s
  | _ => none

/-- The request body of a webhook call: either bytes that fail JSON parsing
(`request.get_json(force=True, silent=True)` then returns `None`) or a parsed JSON
value. -/
inductive RawBody
  | invalid
  | json (j : Json)

/-- Result of the webhook handler: an HTTP-style response carrying the resulting
subscriptions ledger, or an uncaught Python `AttributeError` escaping the handler
(surfacing as a framework 500 error). -/
inductive WResult
  | resp (ledger : List SubRow) (body : String) (code : Nat)
  | attrError
deriving DecidableEq

/-- The field-extraction part of `chargily_webhook`: read `entity`, `status`,
`metadata` at top level (with `metadata = evt.get("metadata") or {}`); when `entity`
is falsy and `evt["data"]` is a dict, fall back to the corresponding fields of
`data`, each guarded by `or` keeping the earlier value when the nested one is
falsy. -/
def extractEvent (fs : List (String × Json)) : Json × Json × Json :=
  if jsonTruthy (dictGet fs "entity") then
    (dictGet fs "entity", dictGet fs "status", pyOrEmpty (dictGet fs "metadata"))
  else
    match dictGet fs "data" with
    | Json.obj ds =>
        (pyOrElse (dictGet ds "entity") (dictGet fs "entity"),
         pyOrElse (dictGet ds "status") (dictGet fs "status"),
         pyOrElse (dictGet ds "metadata") (pyOrEmpty (dictGet fs "metadata")))
    | _ =>
        (dictGet fs "entity", dictGet fs "status", pyOrEmpty (dictGet fs "metadata"))

/-- The body of `chargily_webhook` from src/app.py once `evt` is known to be a dict
with fields `fs`.  A truthy non-dict `metadata` makes
`(metadata or {}).get("user_id")` raise `AttributeError`.  For
`entity == "checkout"` with an accepted status, `int(user_id)` failure answers
("missing user_id", 400); otherwise one billing month is created and
`cancel_at_period_end` is cleared on the user's active rows, answering ("ok", 200).
Every other payload answers ("ignored", 200). -/
def webhook_on_object (subs : List SubRow) (today : Int)
    (fs : List (String × Json)) : WResult :=
  match extractEvent fs with
  | (entity, status, metadata) =>
    match pyOrEmpty metadata with
    | Json.obj ms =>
      if isStr entity "checkout" && acceptedStatus status then
        match pyToInt (dictGet ms "user_id") with
        | none => WResult.resp subs "missing user_id" 400
        | some uid =>
            WResult.resp
              (clear_cancel ((create_subscription_month subs uid today).1) uid)
              "ok" 200
      else WResult.resp subs "ignored" 200
    | _ => WResult.attrError

/-- `chargily_webhook` from src/app.py.  The step
`evt = request.get_json(force=True, silent=True) or {}` turns a parse failure into
`None` and hence `{}` — the `except` branch answering ("invalid json", 400) is
unreachable because `silent=True` suppresses the exception — and replaces any falsy
parsed value by `{}`.  A truthy non-dict `evt` makes `evt.get("entity")` raise
`AttributeError` (modelled as `WResult.attrError`); a dict is handled by
`webhook_on_object`. -/
def chargily_webhook (subs : List SubRow) (today : Int) (body : RawBody) : WResult :=
  match
    (match body with
     | RawBody.invalid => Json.obj []
     | RawBody.json j => if jsonTruthy j then j else Json.obj []) with
  | Json.obj fs => webhook_on_object subs today fs
  | _ => WResult.attrError

/-!
## Helper lemmas
-/

/-- A `ORDER BY current_period_end DESC LIMIT 1` query returns no row exactly when no
row matches the `WHERE` clause. -/
theorem queryTopByEnd_eq_none_iff (p : SubRow → Bool) (l : List SubRow) :
    queryTopByEnd p l = none ↔ ∀ r ∈ l, p r = false := by
  induction l with
  | nil => simp [queryTopByEnd]
  | cons r rs ih =>
    rw [queryTopByEnd]
    cases hq : queryTopByEnd p rs <;> cases hp : p r <;>
      simp_all [List.forall_mem_cons]
    split <;> simp

/-- A row returned by a `ORDER BY current_period_end DESC LIMIT 1` query belongs to
the table and matches the `WHERE` clause. -/
theorem queryTopByEnd_mem {p : SubRow → Bool} {b : SubRow} :
    ∀ {l : List SubRow}, queryTopByEnd p l = some b → b ∈ l ∧ p b = true := by
  intro l
  induction l with
  | nil => intro h; simp [queryTopByEnd] at h
  | cons r rs ih =>
    intro h
    rw [queryTopByEnd] at h
    cases hq : queryTopByEnd p rs <;> cases hp : p r <;> simp only [hq, hp] at h
    · exact absurd h (by simp)
    · obtain rfl := Option.some.inj h
      exact ⟨List.mem_cons_self r rs, hp⟩
    · obtain rfl := Option.some.inj h
      obtain ⟨hmem, hpb⟩ := ih hq
      exact ⟨List.mem_cons_of_mem r hmem, hpb⟩
    · split at h
      · obtain rfl := Option.some.inj h
        obtain ⟨hmem, hpb⟩ := ih hq
        exact ⟨List.mem_cons_of_mem r hmem, hpb⟩
      · obtain rfl := Option.some.inj h
        exact ⟨List.mem_cons_self r rs, hp⟩

/-- A row returned by a `ORDER BY current_period_end DESC LIMIT 1` query has maximal
`current_period_end` among the matching rows. -/
theorem queryTopByEnd_le {p : SubRow → Bool} :
    ∀ {l : List SubRow} {b : SubRow}, queryTopByEnd p l = some b →
      ∀ r ∈ l, p r = true → r.current_period_end ≤ b.current_period_end := by
  intro l
  induction l with
  | nil => intro b h; simp [queryTopByEnd] at h
  | cons r rs ih =>
    intro b h x hx hpx
    rw [queryTopByEnd] at h
    rcases List.mem_cons.mp hx with rfl | hxs
    · cases hq : queryTopByEnd p rs <;> simp only [hq, hpx] at h
      · obtain rfl := Option.some.inj h; exact le_refl _
      · split at h
        · obtain rfl := Option.some.inj h
          rename_i hlt; exact le_of_lt hlt
        · obtain rfl := Option.some.inj h; exact le_refl _
    · cases hq : queryTopByEnd p rs <;> cases hp : p r <;> simp only [hq, hp] at h
      · exact absurd h (by simp)
      · obtain rfl := Option.some.inj h
        have := (queryTopByEnd_eq_none_iff p rs).mp hq x hxs
        rw [this] at hpx; cases hpx
      · obtain rfl := Option.some.inj h
        exact ih hq x hxs hpx
      · split at h
        · obtain rfl := Option.some.inj h
          exact ih hq x hxs hpx
        · obtain rfl := Option.some.inj h
          rename_i hnlt
          exact le_trans (ih hq x hxs hpx) (le_of_not_lt hnlt)

/-- A `ORDER BY current_period_end DESC LIMIT 1` query returns a row exactly when
some row matches the `WHERE` clause. -/
theorem queryTopByEnd_isSome_iff (p : SubRow → Bool) (l : List SubRow) :
    (queryTopByEnd p l).isSome = true ↔ ∃ r ∈ l, p r = true := by
  cases hq : queryTopByEnd p l with
  | none =>
    simp only [Option.isSome_none, Bool.false_eq_true, false_iff]
    rintro ⟨r, hr, hpr⟩
    have := (queryTopByEnd_eq_none_iff p l).mp hq r hr
    rw [this] at hpr; cases hpr
  | some b =>
    simp only [Option.isSome_some, true_iff]
    obtain ⟨hb, hpb⟩ := queryTopByEnd_mem hq
    exact ⟨b, hb, hpb⟩

/-- Appending a matching row whose `current_period_end` is strictly larger than that
of every matching row makes it the row the query returns. -/
theorem queryTopByEnd_append_strict (p : SubRow → Bool) (r : SubRow)
    (hp : p r = true) :
    ∀ (l : List SubRow),
      (∀ s ∈ l, p s = true → s.current_period_end < r.current_period_end) →
      queryTopByEnd p (l ++ [r]) = some r := by
  intro l
  induction l with
  | nil =>
    intro _
    simp [queryTopByEnd, hp]
  | cons a l ih =>
    intro hmax
    have ih2 := ih (fun s hs hps => hmax s (List.mem_cons_of_mem a hs) hps)
    rw [List.cons_append, queryTopByEnd, ih2]
    cases hpa : p a
    · rfl
    · have hlt := hmax a (List.mem_cons_self a l) hpa
      simp [hlt]

/-- Two booleans agreeing as propositions are equal. -/
theorem bool_eq_of_true_iff {a b : Bool} (h : (a = true) ↔ (b = true)) : a = b := by
  cases a <;> cases b <;> simp_all

/-- `has_trial_access` holds exactly for a user whose `trial_ends_at` is a valid date
that is today or later. -/
theorem has_trial_access_iff (u : User) (today : Int) :
    has_trial_access (some u) today = true ↔
      ∃ d, u.trial_ends_at = DateField.date d ∧ today ≤ d := by
  cases h : u.trial_ends_at with
  | null => simp [has_trial_access, h]
  | invalid => simp [has_trial_access, h]
  | date d => simp [has_trial_access, h]

/-- `active_subscription_for` finds a row exactly when the user has an active period
ending today or later. -/
theorem active_subscription_for_isSome_iff (subs : List SubRow) (uid today : Int) :
    (active_subscription_for subs uid today).isSome = true ↔
      ∃ r ∈ subs, r.user_id = uid ∧ r.status = SubStatus.active ∧
        today ≤ r.current_period_end := by
  rw [active_subscription_for, queryTopByEnd_isSome_iff]
  simp only [decide_eq_true_eq]

/-- `a or {}` is the identity on dicts (an empty dict is falsy but is replaced by an
equal empty dict). -/
theorem pyOrEmpty_obj (ms : List (String × Json)) :
    pyOrEmpty (Json.obj ms) = Json.obj ms := by
  cases ms <;> simp [pyOrEmpty, pyOrElse, jsonTruthy]

/-!
## Claim theorems
-/

/-- C1: when the user has no billing period with status active, or every such period
(in particular the latest by `current_period_end`) ends strictly before today, the
row inserted by `create_subscription_month` starts today; when the maximal active
`current_period_end` `m` is today or later, the inserted row starts on `m + 1`. -/
theorem C1_create_subscription_month_start (subs : List SubRow) (uid today : Int) :
    ((∀ r ∈ subs, r.user_id = uid → r.status = SubStatus.active →
        r.current_period_end < today) →
      (create_subscription_month subs uid today).1 =
        subs ++ [⟨uid, SubStatus.active, today, today + 29, 0⟩])
    ∧ (∀ m : Int,
        (∃ r ∈ subs, r.user_id = uid ∧ r.status = SubStatus.active ∧
          r.current_period_end = m) →
        (∀ r ∈ subs, r.user_id = uid → r.status = SubStatus.active →
          r.current_period_end ≤ m) →
        today ≤ m →
        (create_subscription_month subs uid today).1 =
          subs ++ [⟨uid, SubStatus.active, m + 1, m + 30, 0⟩]) := by
  constructor
  · intro h
    have hs : newPeriodStart subs uid today = today := by
      rw [newPeriodStart]
      cases hq : queryTopByEnd
          (fun r => decide (r.user_id = uid ∧ r.status = SubStatus.active)) subs with
      | none => rfl
      | some last =>
        obtain ⟨hmem, hplast⟩ := queryTopByEnd_mem hq
        simp only [decide_eq_true_eq] at hplast
        have hlt := h last hmem hplast.1 hplast.2
        simp [not_le.mpr hlt]
    simp only [create_subscription_month, hs, BILLING_DAYS]
    norm_num
  · intro m hex hub htm
    obtain ⟨r0, hr0m, hr0u, hr0s, hr0e⟩ := hex
    have hsome : (queryTopByEnd
        (fun r => decide (r.user_id = uid ∧ r.status = SubStatus.active))
          subs).isSome = true := by
      rw [queryTopByEnd_isSome_iff]
      exact ⟨r0, hr0m, by simp [hr0u, hr0s]⟩
    obtain ⟨last, hq⟩ := Option.isSome_iff_exists.mp hsome
    obtain ⟨hmem, hplast⟩ := queryTopByEnd_mem hq
    simp only [decide_eq_true_eq] at hplast
    have h1 : last.current_period_end ≤ m := hub last hmem hplast.1 hplast.2
    have h2 : m ≤ last.current_period_end := by
      have := queryTopByEnd_le hq r0 hr0m (by simp [hr0u, hr0s])
      omega
    have hm : last.current_period_end = m := le_antisymm h1 h2
    have hs : newPeriodStart subs uid today = m + 1 := by
      rw [newPeriodStart, hq]
      simp [hm, htm]
    simp only [create_subscription_month, hs, BILLING_DAYS]
    norm_num
    omega

/-- Witness for C1 at a concrete ledger: with one active period ending on day 10,
extending on day 50 (after the period lapsed) starts the new period on day 50. -/
theorem C1_create_subscription_month_start_witness :
    (create_subscription_month [⟨1, SubStatus.active, 0, 10, 0⟩] 1 50).1 =
      [⟨1, SubStatus.active, 0, 10, 0⟩, ⟨1, SubStatus.active, 50, 79, 0⟩] := by
  have h := (C1_create_subscription_month_start
      [⟨1, SubStatus.active, 0, 10, 0⟩] 1 50).1 (by decide)
  simpa using h

/-- C7: every row appended by the period-extension operation satisfies
`current_period_end - current_period_start = 29` exactly (a 30-day inclusive cycle),
for any start date. -/
theorem C7_create_subscription_month_cycle (subs : List SubRow) (uid today : Int) :
    ∃ r : SubRow, (create_subscription_month subs uid today).1 = subs ++ [r] ∧
      r.current_period_end - r.current_period_start = 29 := by
  refine ⟨_, rfl, ?_⟩
  simp [BILLING_DAYS]

/-- C10: a `trial_ends_at` that is non-empty but not parseable as an ISO date makes
`has_trial_access` return `False` (the `except` branch) instead of propagating a
parse error, so the access check is total over arbitrary stored strings. -/
theorem C10_has_trial_access_invalid (u : User) (today : Int)
    (h : u.trial_ends_at = DateField.invalid) :
    has_trial_access (some u) today = false := by
  simp [has_trial_access, h]

/-- Witness for C10 at a concrete user whose stored `trial_ends_at` is an
unparseable non-empty string. -/
theorem C10_has_trial_access_invalid_witness :
    has_trial_access (some ⟨1, DateField.null, DateField.invalid⟩) 0 = false :=
  C10_has_trial_access_invalid ⟨1, DateField.null, DateField.invalid⟩ 0 rfl

/-- C2: the protected-page gate proceeds exactly when the user id resolves to an
existing user who has either a set trial end date that is today or later, or an
active billing period with `current_period_end` today or later; every other case —
including a nonexistent user id — yields the pricing-page redirect (the only other
outcome, not an error). -/
theorem C2_subscription_required_iff (users : List User) (subs : List SubRow)
    (uid today : Int) :
    (subscription_required users subs uid today = GateResult.proceed ↔
      ∃ u, findUser users uid = some u ∧
        ((∃ d, u.trial_ends_at = DateField.date d ∧ today ≤ d) ∨
         (∃ r ∈ subs, r.user_id = uid ∧ r.status = SubStatus.active ∧
           today ≤ r.current_period_end)))
    ∧ (subscription_required users subs uid today = GateResult.proceed ∨
       subscription_required users subs uid today = GateResult.redirectPricing) := by
  constructor
  · cases hf : findUser users uid with
    | none => simp [subscription_required, hf]
    | some u =>
      have hgate : subscription_required users subs uid today = GateResult.proceed ↔
          (has_trial_access (some u) today ||
            (active_subscription_for subs uid today).isSome) = true := by
        rw [subscription_required, hf]
        by_cases hb : (has_trial_access (some u) today ||
            (active_subscription_for subs uid today).isSome) = true
        · simp [hb]
        · simp [hb]
      rw [hgate, Bool.or_eq_true, has_trial_access_iff,
        active_subscription_for_isSome_iff]
      simp [hf]
  · cases subscription_required users subs uid today
    · exact Or.inl rfl
    · exact Or.inr rfl

/-- Witness for C2: a user whose trial ends on day 3 passes the gate on day 2. -/
theorem C2_subscription_required_iff_witness :
    subscription_required [⟨7, DateField.null, DateField.date 3⟩] [] 7 2 =
      GateResult.proceed :=
  ((C2_subscription_required_iff [⟨7, DateField.null, DateField.date 3⟩] [] 7 2).1).mpr
    ⟨⟨7, DateField.null, DateField.date 3⟩, by decide, Or.inl ⟨3, rfl, by decide⟩⟩

/-- C6: trial activation is one-way.  If the found user's `trial_started_at` is
already set (truthy — even if the window has expired), the attempt is rejected with
the "trial already used" outcome and the users table is unchanged; if it is null, the
activation sets `trial_started_at = today` and `trial_ends_at = today + 7`. -/
theorem C6_subscribe_start_trial_one_way (users : List User) (uid today : Int)
    (u : User) (hfind : findUser users uid = some u) :
    (u.trial_started_at ≠ DateField.null →
      subscribe_start_trial users uid today = (users, TrialOutcome.alreadyUsed))
    ∧ (u.trial_started_at = DateField.null →
      subscribe_start_trial users uid today =
        (users.map (fun v =>
            if v.id = uid then
              { v with trial_started_at := DateField.date today,
                       trial_ends_at := DateField.date (today + 7) }
            else v),
         TrialOutcome.started (today + 7))) := by
  constructor
  · intro h
    have htr : dateFieldTruthy u.trial_started_at = true := by
      cases hts : u.trial_started_at
      · exact absurd hts h
      · rfl
      · rfl
    rw [subscribe_start_trial, hfind]
    simp [htr]
  · intro h
    have htr : dateFieldTruthy u.trial_started_at = false := by
      rw [h]; rfl
    rw [subscribe_start_trial, hfind]
    simp [htr, TRIAL_DAYS]

/-- Witness for C6: a user who started a trial on day 0 (ending day 7) is rejected
when re-activating on day 100, long after the window expired, with no change. -/
theorem C6_subscribe_start_trial_one_way_witness :
    subscribe_start_trial [⟨1, DateField.date 0, DateField.date 7⟩] 1 100 =
      ([⟨1, DateField.date 0, DateField.date 7⟩], TrialOutcome.alreadyUsed) :=
  (C6_subscribe_start_trial_one_way [⟨1, DateField.date 0, DateField.date 7⟩] 1 100
    ⟨1, DateField.date 0, DateField.date 7⟩ (by decide)).1 (by decide)

/-- C8: cancellation is idempotent and non-destructive — running it twice equals
running it once; each row keeps its position and has only its cancellation flag
possibly changed (set to 1 exactly on the user's active rows with flag 0, everything
else untouched); and the protected-page access decision is unchanged for every user
on every day. -/
theorem C8_subscribe_cancel_idempotent (subs : List SubRow) (uid : Int) :
    subscribe_cancel (subscribe_cancel subs uid) uid = subscribe_cancel subs uid
    ∧ (∀ i : Nat, (subscribe_cancel subs uid)[i]? =
        subs[i]?.map (fun r =>
          if r.user_id = uid ∧ r.status = SubStatus.active ∧
              r.cancel_at_period_end = 0
          then { r with cancel_at_period_end := 1 }
          else r))
    ∧ (∀ (users : List User) (v today : Int),
        subscription_required users (subscribe_cancel subs uid) v today =
          subscription_required users subs v today) := by
  refine ⟨?_, ?_, ?_⟩
  · simp only [subscribe_cancel, List.map_map]
    apply List.map_congr_left
    intro r _
    by_cases h : r.user_id = uid ∧ r.status = SubStatus.active ∧
        r.cancel_at_period_end = 0
    · simp [Function.comp, h]
    · simp [Function.comp, h]
  · intro i
    rw [subscribe_cancel, List.getElem?_map]
  · intro users v today
    rw [subscription_required, subscription_required]
    cases hf : findUser users v with
    | none => rfl
    | some u =>
      have hiso : (active_subscription_for (subscribe_cancel subs uid) v today).isSome
          = (active_subscription_for subs v today).isSome := by
        apply bool_eq_of_true_iff
        rw [active_subscription_for_isSome_iff, active_subscription_for_isSome_iff]
        rw [subscribe_cancel]
        constructor
        · rintro ⟨r, hr, hP⟩
          obtain ⟨a, ha, rfl⟩ := List.mem_map.mp hr
          refine ⟨a, ha, ?_⟩
          by_cases h : a.user_id = uid ∧ a.status = SubStatus.active ∧
              a.cancel_at_period_end = 0
          · simpa [h] using hP
          · simpa [h] using hP
        · rintro ⟨a, ha, hP⟩
          refine ⟨_, List.mem_map_of_mem _ ha, ?_⟩
          by_cases h : a.user_id = uid ∧ a.status = SubStatus.active ∧
              a.cancel_at_period_end = 0
          · simpa [h] using hP
          · simpa [h] using hP
      rw [hiso]

/-- C3: a webhook payload whose object has top-level entity "checkout", a status
among "paid"/"succeeded"/"success", and a metadata object whose `user_id` parses as
the integer `n` answers ("ok", 200); the resulting ledger is the old one with
`cancel_at_period_end` cleared on all of user `n`'s active rows and exactly one new
row appended for `n` with status active, `cancel_at_period_end = 0` and the computed
30-day period; no other row is changed. -/
theorem C3_chargily_webhook_paid (subs : List SubRow) (today : Int)
    (fs ms : List (String × Json)) (st : String) (n : Int)
    (hent : dictGet fs "entity" = Json.str "checkout")
    (hst : dictGet fs "status" = Json.str st)
    (hstacc : st = "paid" ∨ st = "succeeded" ∨ st = "success")
    (hmeta : dictGet fs "metadata" = Json.obj ms)
    (huid : pyToInt (dictGet ms "user_id") = some n) :
    chargily_webhook subs today (RawBody.json (Json.obj fs)) =
      WResult.resp
        (clear_cancel subs n ++
          [⟨n, SubStatus.active, newPeriodStart subs n today,
            newPeriodStart subs n today + 29, 0⟩])
        "ok" 200 := by
  have hfs : fs.isEmpty = false := by
    cases fs with
    | nil => simp [dictGet] at hent
    | cons a l => rfl
  have htro : jsonTruthy (Json.obj fs) = true := by
    simp [jsonTruthy, hfs]
  have hext : extractEvent fs = (Json.str "checkout", Json.str st, Json.obj ms) := by
    rw [extractEvent, hent]
    rw [if_pos (by decide : jsonTruthy (Json.str "checkout") = true)]
    rw [hst, hmeta, pyOrEmpty_obj]
  have hacc : acceptedStatus (Json.str st) = true := by
    rcases hstacc with rfl | rfl | rfl <;> decide
  have hfinal : clear_cancel ((create_subscription_month subs n today).1) n =
      clear_cancel subs n ++
        [⟨n, SubStatus.active, newPeriodStart subs n today,
          newPeriodStart subs n today + 29, 0⟩] := by
    simp only [create_subscription_month, clear_cancel, List.map_append,
      List.map_cons, List.map_nil, BILLING_DAYS]
    norm_num
  rw [chargily_webhook]
  simp only [htro, if_true]
  rw [webhook_on_object, hext]
  simp only [pyOrEmpty_obj]
  simp only [isStr, hacc, Bool.and_true]
  rw [if_pos (by decide : decide True = true)]
  rw [huid]
  show WResult.resp (clear_cancel ((create_subscription_month subs n today).1) n)
      "ok" 200 = _
  rw [hfinal]

/-- Witness for C3 at the spec's example payload
`{"entity": "checkout", "status": "paid", "metadata": {"user_id": "42"}}` on an
empty ledger on day 0: one active period [0, 29] is appended for user 42. -/
theorem C3_chargily_webhook_paid_witness :
    chargily_webhook [] 0 (RawBody.json (Json.obj
        [("entity", Json.str "checkout"), ("status", Json.str "paid"),
         ("metadata", Json.obj [("user_id", Json.str "42")])])) =
      WResult.resp [⟨42, SubStatus.active, 0, 29, 0⟩] "ok" 200 := by
  have h := C3_chargily_webhook_paid [] 0
    [("entity", Json.str "checkout"), ("status", Json.str "paid"),
     ("metadata", Json.obj [("user_id", Json.str "42")])]
    [("user_id", Json.str "42")] "paid" 42 rfl rfl (Or.inl rfl) rfl (by decide)
  simpa using h

/-- C4 (evaluation at the failing input): a valid JSON body that is a non-empty
array — a truthy non-dict — makes the handler raise `AttributeError` at
`evt.get("entity")` instead of returning a response, contradicting the claim that
the handler never raises. -/
theorem C4_chargily_webhook_nonobject_raises :
    chargily_webhook [] 0 (RawBody.json (Json.arr [Json.num 1])) =
      WResult.attrError := by
  decide

/-- C5 (evaluation at the failing input): a request body that is not valid JSON is
answered ("ignored", 200) with the ledger unchanged, not ("invalid json", 400) as
claimed: `silent=True` makes `get_json` return `None` instead of raising, so the
`except` branch answering ("invalid json", 400) is dead code. -/
theorem C5_chargily_webhook_invalid_json_ignored :
    chargily_webhook [] 0 RawBody.invalid = WResult.resp [] "ignored" 200 := by
  decide

/-- C9 counterexample: on an empty ledger, a payment on day 0 creates the period
[0, 29]; a second payment on day 100 (after the period lapsed) creates [100, 129],
whose start is not the day after 29 — so successive payments are not always
consecutive, contradicting the claim as stated. -/
theorem C9_counterexample_gap :
    (create_subscription_month ((create_subscription_month [] 1 0).1) 1 100).1 =
      [⟨1, SubStatus.active, 0, 29, 0⟩, ⟨1, SubStatus.active, 100, 129, 0⟩] ∧
    (100 : Int) ≠ 29 + 1 := by
  decide

/-- C9 (amended): the period-extension operation is append-only — every existing row
is returned unchanged and exactly one new row is appended — and for two successive
payments for the same user the later period starts strictly after the earlier one
ends (non-overlapping), starting exactly the day after that end whenever the later
payment occurs on or before it (consecutive when renewing an unexpired period). -/
theorem C9_create_subscription_month_append_only (subs : List SubRow)
    (uid today today2 : Int) :
    (create_subscription_month subs uid today).1 =
      subs ++ [⟨uid, SubStatus.active, newPeriodStart subs uid today,
        newPeriodStart subs uid today + 29, 0⟩]
    ∧ (∃ r2 : SubRow,
        (create_subscription_month ((create_subscription_month subs uid today).1)
            uid today2).1 =
          (create_subscription_month subs uid today).1 ++ [r2] ∧
        r2.user_id = uid ∧ r2.status = SubStatus.active ∧
        r2.current_period_end = r2.current_period_start + 29 ∧
        r2.cancel_at_period_end = 0 ∧
        newPeriodStart subs uid today + 29 < r2.current_period_start ∧
        (today2 ≤ newPeriodStart subs uid today + 29 →
          r2.current_period_start = newPeriodStart subs uid today + 29 + 1)) := by
  have hfirst : (create_subscription_month subs uid today).1 =
      subs ++ [⟨uid, SubStatus.active, newPeriodStart subs uid today,
        newPeriodStart subs uid today + 29, 0⟩] := by
    simp only [create_subscription_month, BILLING_DAYS]
    norm_num
  have hmax : ∀ s ∈ subs,
      (fun r => decide (r.user_id = uid ∧ r.status = SubStatus.active)) s = true →
      s.current_period_end < newPeriodStart subs uid today + 29 := by
    intro s hs hps
    simp only [decide_eq_true_eq] at hps
    cases hq : queryTopByEnd
        (fun r => decide (r.user_id = uid ∧ r.status = SubStatus.active)) subs with
    | none =>
      exfalso
      have hnone := (queryTopByEnd_eq_none_iff _ subs).mp hq s hs
      simp [hps.1, hps.2] at hnone
    | some last =>
      have hnp : newPeriodStart subs uid today =
          if today ≤ last.current_period_end
          then last.current_period_end + 1 else today := by
        rw [newPeriodStart, hq]
      have hle := queryTopByEnd_le hq s hs (by simp [hps.1, hps.2])
      rw [hnp]
      by_cases ht : today ≤ last.current_period_end
      · rw [if_pos ht]; omega
      · rw [if_neg ht]; omega
  have hp1 : (fun r => decide (r.user_id = uid ∧ r.status = SubStatus.active))
      (⟨uid, SubStatus.active, newPeriodStart subs uid today,
        newPeriodStart subs uid today + 29, 0⟩ : SubRow) = true := by
    simp
  have hq1 := queryTopByEnd_append_strict
      (fun r => decide (r.user_id = uid ∧ r.status = SubStatus.active))
      (⟨uid, SubStatus.active, newPeriodStart subs uid today,
        newPeriodStart subs uid today + 29, 0⟩ : SubRow) hp1 subs
      (fun s hs hps => hmax s hs hps)
  have hs2 : newPeriodStart ((create_subscription_month subs uid today).1) uid today2
      = (if today2 ≤ newPeriodStart subs uid today + 29
         then newPeriodStart subs uid today + 29 + 1 else today2) := by
    rw [hfirst, newPeriodStart, hq1]
  have hsecond : (create_subscription_month
        ((create_subscription_month subs uid today).1) uid today2).1 =
      (create_subscription_month subs uid today).1 ++
        [⟨uid, SubStatus.active,
          newPeriodStart ((create_subscription_month subs uid today).1) uid today2,
          newPeriodStart ((create_subscription_month subs uid today).1) uid today2
            + 29, 0⟩] := by
    simp only [create_subscription_month, BILLING_DAYS]
    norm_num
  refine ⟨hfirst,
    ⟨uid, SubStatus.active,
      newPeriodStart ((create_subscription_month subs uid today).1) uid today2,
      newPeriodStart ((create_subscription_month subs uid today).1) uid today2 + 29,
      0⟩,
    hsecond, rfl, rfl, rfl, rfl, ?_, ?_⟩
  · show newPeriodStart subs uid today + 29 <
      newPeriodStart ((create_subscription_month subs uid today).1) uid today2
    rw [hs2]
    split_ifs with h
    · omega
    · omega
  · intro h
    show newPeriodStart ((create_subscription_month subs uid today).1) uid today2 =
      newPeriodStart subs uid today + 29 + 1
    rw [hs2, if_pos h]

/-- Witness for C9 (amended): on an empty ledger, a payment on day 0 creates [0, 29]
and a second payment on day 10 — within the running period — appends a period
starting on day 30, the day right after the first ends. -/
theorem C9_create_subscription_month_append_only_witness :
    ∃ r2 : SubRow,
      (create_subscription_month ((create_subscription_month [] 1 0).1) 1 10).1 =
        (create_subscription_month [] 1 0).1 ++ [r2] ∧
      r2.current_period_start = 30 := by
  obtain ⟨h1, r2, h2, hu, hs, he, hc, hgap, hcons⟩ :=
    C9_create_subscription_month_append_only [] 1 0 10
  refine ⟨r2, h2, ?_⟩
  have h10 : (10 : Int) ≤ newPeriodStart [] 1 0 + 29 := by decide
  have := hcons h10
  have h0 : newPeriodStart [] 1 0 = 0 := by decide
  omega
